import Mathlib

/-!
Verification of the prescription CRUD service (`src/main.py`).

The service is a FastAPI application exposing four endpoints over a single
`prescriptions` table of a remote Supabase store:

* `POST /prescriptions/` (`create_prescription`)
* `GET /prescriptions/` (`get_prescriptions`, optional `drid` filter)
* `GET /prescriptions/{id}` (`get_prescription`)
* `DELETE /prescriptions/{id}` (`delete_prescription`)

We embed the pydantic data model, the JSON (de)serialization that the code
performs (`.dict()` on the way in, `Medicine(**med)` /
`PrescriptionResponse(**row)` on the way out), and each endpoint handler as a
pure function over an explicit store state.  The remote store itself is an
external collaborator; its contract (insert / select-by-equality /
delete-by-equality, each returning the affected rows) is modelled as a list of
rows paired with an id counter.
-/

/-- JSON-like values: the wire shape of request and response bodies and of the
rows held by the store (`medicines` is stored as a list of plain
dictionaries). -/
inductive JVal : Type where
  | str : String → JVal
  | int : Int → JVal
  | arr : List JVal → JVal
  | obj : List (String × JVal) → JVal

/-- Medicine value object (pydantic `Medicine`, src/main.py lines 37-41). -/
structure Medicine where
  name : String
  dosage : String
  frequency : String
  note : String
deriving DecidableEq

/-- Inbound creation payload (pydantic `FormData`, src/main.py lines 43-50):
a prescription minus the store-assigned `id`. -/
structure FormData where
  drid : Int
  sendToValue : String
  patientName : String
  patientAge : String
  patientDescription : String
  currentDate : String
  medicines : List Medicine
deriving DecidableEq

/-- Outbound record (pydantic `PrescriptionResponse`, src/main.py lines
52-60): the payload fields plus the assigned `id`. -/
structure PrescriptionResponse where
  id : Int
  drid : Int
  sendToValue : String
  patientName : String
  patientAge : String
  patientDescription : String
  currentDate : String
  medicines : List Medicine
deriving DecidableEq

/-- Body of a successful DELETE response (src/main.py line 149). -/
structure MessageBody where
  message : String
deriving DecidableEq

/-- Outcome of a request: either a typed success body, or an HTTP error
response carrying a status code and the JSON value bound to the `detail`
key of the error body. -/
inductive HResult (α : Type) : Type where
  | ok : α → HResult α
  | err : Nat → JVal → HResult α

/-- Extract a JSON string (type check performed by pydantic's `str` fields). -/
def jStr? : JVal → Option String
  | .str s => some s
  | _ => none

/-- Extract a JSON integer (type check performed by pydantic's `int` fields). -/
def jInt? : JVal → Option Int
  | .int n => some n
  | _ => none

/-- Extract a JSON array (type check performed by pydantic's `List` fields). -/
def jArr? : JVal → Option (List JVal)
  | .arr l => some l
  | _ => none

/-- Sequence an option-valued function over a list, failing if any element
fails: the semantics of the list comprehensions `[Medicine(**med) for med in
...]` in src/main.py (lines 82, 109, 129), which abort on the first
pydantic validation error. -/
def optionMapM (f : α → Option β) : List α → Option (List β)
  | [] => some []
  | a :: l => do
      let b ← f a
      let bs ← optionMapM f l
      pure (b :: bs)

/-- Serialization of a medicine into a plain dictionary: `med.dict()`
(src/main.py line 70). -/
def medicineToJson (m : Medicine) : JVal :=
  .obj [("name", .str m.name), ("dosage", .str m.dosage),
        ("frequency", .str m.frequency), ("note", .str m.note)]

/-- Parsing of a stored medicine dictionary back into a typed value:
`Medicine(**med)` (src/main.py lines 82, 109, 129).  Each of the four
fields must be present and be a string; pydantic ignores extra keys. -/
def medicineFromJson : JVal → Option Medicine
  | .obj fields => do
      let name ← (List.lookup "name" fields).bind jStr?
      let dosage ← (List.lookup "dosage" fields).bind jStr?
      let frequency ← (List.lookup "frequency" fields).bind jStr?
      let note ← (List.lookup "note" fields).bind jStr?
      pure { name := name, dosage := dosage, frequency := frequency, note := note }
  | _ => none

/-- Wire shape of a full prescription record: all scalar fields plus
`medicines` as a list of plain dictionaries.  This is the shape produced by
`form_data.dict()` after line 70 (plus `id`), i.e. the row stored in and
echoed by the store. -/
def prescriptionToJson (p : PrescriptionResponse) : JVal :=
  .obj [("id", .int p.id), ("drid", .int p.drid),
        ("sendToValue", .str p.sendToValue), ("patientName", .str p.patientName),
        ("patientAge", .str p.patientAge),
        ("patientDescription", .str p.patientDescription),
        ("currentDate", .str p.currentDate),
        ("medicines", .arr (p.medicines.map medicineToJson))]

/-- Parsing of a wire-shaped prescription back into the typed record:
`Medicine(**med)` for each stored medicine dictionary followed by
`PrescriptionResponse(**row)` (src/main.py lines 82-84, 129-131). -/
def prescriptionFromJson : JVal → Option PrescriptionResponse
  | .obj fields => do
      let id ← (List.lookup "id" fields).bind jInt?
      let drid ← (List.lookup "drid" fields).bind jInt?
      let sendToValue ← (List.lookup "sendToValue" fields).bind jStr?
      let patientName ← (List.lookup "patientName" fields).bind jStr?
      let patientAge ← (List.lookup "patientAge" fields).bind jStr?
      let patientDescription ← (List.lookup "patientDescription" fields).bind jStr?
      let currentDate ← (List.lookup "currentDate" fields).bind jStr?
      let medsJson ← (List.lookup "medicines" fields).bind jArr?
      let medicines ← optionMapM medicineFromJson medsJson
      pure { id := id, drid := drid, sendToValue := sendToValue,
             patientName := patientName, patientAge := patientAge,
             patientDescription := patientDescription, currentDate := currentDate,
             medicines := medicines }
  | _ => none

/-- Parsing and validation of an inbound creation payload against `FormData`
(src/main.py lines 43-50): every field must be present with the declared
primitive type, and `medicines` must be an array whose elements each satisfy
the `Medicine` shape.  This is the validation FastAPI/pydantic performs
before `create_prescription` runs. -/
def parseFormData : JVal → Option FormData
  | .obj fields => do
      let drid ← (List.lookup "drid" fields).bind jInt?
      let sendToValue ← (List.lookup "sendToValue" fields).bind jStr?
      let patientName ← (List.lookup "patientName" fields).bind jStr?
      let patientAge ← (List.lookup "patientAge" fields).bind jStr?
      let patientDescription ← (List.lookup "patientDescription" fields).bind jStr?
      let currentDate ← (List.lookup "currentDate" fields).bind jStr?
      let medsJson ← (List.lookup "medicines" fields).bind jArr?
      let medicines ← optionMapM medicineFromJson medsJson
      pure { drid := drid, sendToValue := sendToValue, patientName := patientName,
             patientAge := patientAge, patientDescription := patientDescription,
             currentDate := currentDate, medicines := medicines }
  | _ => none

/-- Row of the `prescriptions` table: the scalar fields plus the stored raw
representation of `medicines` (a JSON list of dictionaries, exactly what
line 70 of src/main.py inserts). -/
structure Row where
  id : Int
  drid : Int
  sendToValue : String
  patientName : String
  patientAge : String
  patientDescription : String
  currentDate : String
  medicines : List JVal

/-- Modelled from the spec: the remote store ("a table-oriented remote
service ... supporting `insert`, `select` (optionally filtered by equality
on a named column), and `delete` (filtered by equality), each returning
either a sequence of affected/matching rows or an empty result", spec §6).
A store is the ordered list of rows of the `prescriptions` table together
with the next id the store will assign on insert. -/
structure Store where
  rows : List Row
  nextId : Int

/-- Row built from a validated creation payload when the store assigns
`newId`: the result of inserting `form_data.dict()` with `medicines`
flattened to plain dictionaries (src/main.py lines 69-73). -/
def formToRow (newId : Int) (f : FormData) : Row :=
  { id := newId, drid := f.drid, sendToValue := f.sendToValue,
    patientName := f.patientName, patientAge := f.patientAge,
    patientDescription := f.patientDescription, currentDate := f.currentDate,
    medicines := f.medicines.map medicineToJson }

/-- Reconstruction of a typed response from a stored row: `Medicine(**med)`
over the stored medicine dictionaries followed by
`PrescriptionResponse(**row)` (src/main.py lines 82-84, 109-110, 129-131).
Fails (pydantic validation error) when a stored dictionary does not satisfy
the `Medicine` shape. -/
def rowToResponse (r : Row) : Option PrescriptionResponse :=
  (optionMapM medicineFromJson r.medicines).map fun meds =>
    { id := r.id, drid := r.drid, sendToValue := r.sendToValue,
      patientName := r.patientName, patientAge := r.patientAge,
      patientDescription := r.patientDescription, currentDate := r.currentDate,
      medicines := meds }

/-- Handler logic of `create_prescription` downstream of the store call,
as a function of the rows the store returned for the insert (src/main.py
lines 75-87).  When the store returns no data the handler raises
`HTTPException(500, "Failed to store prescription")`; that exception is an
`Exception`, so the surrounding bare `except Exception` catches it and
re-raises it as a 500 whose detail wraps `str(e)`.  When stored medicine
data does not parse, the pydantic error is likewise converted to a 500. -/
def create_prescription_core (insertResult : List Row) : HResult PrescriptionResponse :=
  match insertResult with
  | [] => .err 500 (.str "An error occurred: 500: Failed to store prescription")
  | r :: _ =>
      match rowToResponse r with
      | some p => .ok p
      | none => .err 500 (.str "An error occurred: invalid medicine data")

/-- `create_prescription` (src/main.py lines 62-87): flatten the payload,
insert it, and echo the stored row (with its assigned id) back as the
response.  The store's insert appends the new row and returns it as the
result data. -/
def create_prescription (s : Store) (f : FormData) : HResult PrescriptionResponse × Store :=
  let row := formToRow s.nextId f
  let s' : Store := { rows := s.rows ++ [row], nextId := s.nextId + 1 }
  (create_prescription_core [row], s')

/-- Rows returned by `select("*").eq("id", prescription_id)` (src/main.py
line 123): the stored rows whose `id` column equals the requested id, in
table order. -/
def selectById (s : Store) (pid : Int) : List Row :=
  s.rows.filter fun r => r.id == pid

/-- Handler logic of `get_prescription` downstream of the store call, as a
function of the rows the select returned (src/main.py lines 125-136).  An
empty result raises `HTTPException(404, "Prescription not found")`, which
the `except HTTPException: raise` clause propagates unchanged; otherwise
the handler takes `result.data[0]` and rebuilds its medicines. -/
def get_prescription_core (selectResult : List Row) : HResult PrescriptionResponse :=
  match selectResult with
  | [] => .err 404 (.str "Prescription not found")
  | r :: _ =>
      match rowToResponse r with
      | some p => .ok p
      | none => .err 500 (.str "An error occurred: invalid medicine data")

/-- `get_prescription` (src/main.py lines 117-136). -/
def get_prescription (s : Store) (pid : Int) : HResult PrescriptionResponse :=
  get_prescription_core (selectById s pid)

/-- Rows the list endpoint queries (src/main.py lines 95-101).  The guard is
`if drid:`, Python truthiness: the equality filter on `drid` is applied only
when the parameter is present AND nonzero; a missing parameter (`None`) and
the value `0` are both falsy, so both return the whole table. -/
def listQueryRows (s : Store) (drid : Option Int) : List Row :=
  match drid with
  | some d => if d != 0 then s.rows.filter (fun r => r.drid == d) else s.rows
  | none => s.rows

/-- `get_prescriptions` (src/main.py lines 89-115): query (optionally
filtered) rows, return `[]` when the result is empty, otherwise rebuild
every row's medicines; a pydantic failure on any stored row is converted to
a 500 by the bare `except Exception`. -/
def get_prescriptions (s : Store) (drid : Option Int) : HResult (List PrescriptionResponse) :=
  let rows := listQueryRows s drid
  if rows.isEmpty then .ok []
  else
    match optionMapM rowToResponse rows with
    | some ps => .ok ps
    | none => .err 500 (.str "An error occurred: invalid medicine data")

/-- `delete_prescription` (src/main.py lines 138-152): delete the rows whose
`id` equals the requested id; the store returns the deleted rows.  When no
row matched, the handler raises `HTTPException(404, "Prescription not
found")` — but this handler has no `except HTTPException: raise` clause, so
the bare `except Exception as e` catches that exception and re-raises it as
`HTTPException(500, "An error occurred: " + str(e))`, where `str(e)` of a
starlette `HTTPException` renders as `"404: Prescription not found"`. -/
def delete_prescription (s : Store) (pid : Int) : HResult MessageBody × Store :=
  let deleted := s.rows.filter fun r => r.id == pid
  let s' : Store := { s with rows := s.rows.filter fun r => !(r.id == pid) }
  if deleted.isEmpty then
    (.err 500 (.str "An error occurred: 404: Prescription not found"), s')
  else
    (.ok { message := "Prescription deleted successfully" }, s')

/-- Modelled from FastAPI request-validation behavior (framework code, not in
src/): when the request body fails `FormData` validation, FastAPI rejects
the request before the handler runs with status 422 and a JSON body whose
`detail` is an ARRAY of error objects (not a string).  The entries of the
array are not modelled. -/
def validationErrorDetail : JVal := .arr []

/-- Full behavior of `POST /prescriptions/`: FastAPI validates the raw JSON
body against `FormData` (src/main.py line 63) and rejects invalid bodies
with 422; a valid body runs `create_prescription`. -/
def postPrescriptions (s : Store) (body : JVal) : HResult PrescriptionResponse × Store :=
  match parseFormData body with
  | none => (.err 422 validationErrorDetail, s)
  | some f => create_prescription s f

/-- Response a freshly created prescription should echo: the payload fields
unchanged plus the assigned id. -/
def echoResponse (newId : Int) (f : FormData) : PrescriptionResponse :=
  { id := newId, drid := f.drid, sendToValue := f.sendToValue,
    patientName := f.patientName, patientAge := f.patientAge,
    patientDescription := f.patientDescription, currentDate := f.currentDate,
    medicines := f.medicines }

/-! ### Helper lemmas -/

/-- Serializing a medicine to its plain-dictionary form and parsing it back
recovers the medicine. -/
theorem medicineFromJson_medicineToJson (m : Medicine) :
    medicineFromJson (medicineToJson m) = some m := rfl

/-- Serializing a list of medicines and parsing all of them back recovers
the list, in order. -/
theorem optionMapM_medicineToJson (ms : List Medicine) :
    optionMapM medicineFromJson (ms.map medicineToJson) = some ms := by
  induction ms with
  | nil => rfl
  | cons m ms ih => simp [optionMapM, medicineFromJson_medicineToJson, ih]

/-- A row built from a creation payload parses back into the payload fields
plus the assigned id. -/
theorem rowToResponse_formToRow (newId : Int) (f : FormData) :
    rowToResponse (formToRow newId f) = some (echoResponse newId f) := by
  simp [rowToResponse, formToRow, optionMapM_medicineToJson, echoResponse]

/-- When every element parses, sequencing equals collecting the parses. -/
theorem optionMapM_eq_filterMap {α β : Type} {f : α → Option β} :
    ∀ {l : List α}, (∀ a ∈ l, (f a).isSome) → optionMapM f l = some (l.filterMap f)
  | [], _ => rfl
  | a :: l, h => by
      obtain ⟨b, hb⟩ := Option.isSome_iff_exists.mp (h a (List.mem_cons_self a l))
      have ih := optionMapM_eq_filterMap (f := f) (l := l)
        (fun x hx => h x (List.mem_cons_of_mem a hx))
      simp [optionMapM, hb, ih, List.filterMap_cons]

/-! ### Concrete fixtures used by witnesses and counterexamples -/

/-- Sample medicine fixture. -/
def medPara : Medicine :=
  { name := "Paracetamol", dosage := "500mg", frequency := "2x per day", note := "after meals" }

/-- Sample creation payload fixture. -/
def formSample : FormData :=
  { drid := 1, sendToValue := "pharmacy", patientName := "Jane Doe", patientAge := "34",
    patientDescription := "flu", currentDate := "2024-01-01", medicines := [medPara] }

/-- Store with no rows. -/
def emptyStore : Store := { rows := [], nextId := 1 }

/-- Stored row fixture with id 1 and doctor id 1. -/
def rowOne : Row := formToRow 1 formSample

/-- Store holding the single row `rowOne`. -/
def oneRowStore : Store := { rows := [rowOne], nextId := 2 }

/-! ### Claims -/

/-- C5: serializing a Prescription into its wire shape (nested plain
dictionaries for medicines) and parsing that wire shape back yields a
record equal to the original, with the medicines sequence in exactly its
original order. -/
theorem prescription_wire_roundtrip (p : PrescriptionResponse) :
    prescriptionFromJson (prescriptionToJson p) = some p := by
  simp [prescriptionFromJson, prescriptionToJson, List.lookup, jInt?, jStr?, jArr?,
    optionMapM_medicineToJson]

/-- C7: when the store returns no data for the insert, `create_prescription`
returns an HTTP 500 error response and no prescription record.  (The
handler raises `HTTPException(500, "Failed to store prescription")`, which
the bare `except Exception` re-wraps, still as a 500.) -/
theorem create_empty_insert_returns_500 :
    create_prescription_core [] =
      .err 500 (.str "An error occurred: 500: Failed to store prescription") := rfl

/-- C2 (code bug evidence): deleting an id that was never inserted yields an
HTTP 500 response, not the 404 the handler's own
`HTTPException(status_code=404, detail="Prescription not found")` asks for:
the bare `except Exception` in `delete_prescription` catches that
exception and re-raises it with status 500. -/
theorem delete_missing_id_returns_500 :
    delete_prescription emptyStore 7 =
      (.err 500 (.str "An error occurred: 404: Prescription not found"), emptyStore) := rfl

/-- C10: every successful delete returns the constant body
`{"message": "Prescription deleted successfully"}`, whatever the deleted
record held and however many rows the store reports deleted. -/
theorem delete_success_constant_message (s : Store) (pid : Int)
    (h : s.rows.filter (fun r => r.id == pid) ≠ []) :
    (delete_prescription s pid).1 = .ok { message := "Prescription deleted successfully" } := by
  simp only [delete_prescription]
  rw [if_neg (by simpa [List.isEmpty_iff] using h)]

/-- Witness for C10 at the concrete one-row store and id 1. -/
theorem delete_success_constant_message_witness :
    oneRowStore.rows.filter (fun r => r.id == 1) ≠ [] ∧
    (delete_prescription oneRowStore 1).1 =
      .ok { message := "Prescription deleted successfully" } := by
  refine ⟨?_, delete_success_constant_message oneRowStore 1 ?_⟩ <;>
    simp [oneRowStore, rowOne, formToRow, formSample]

/-- A freshly built row carries the assigned id. -/
theorem formToRow_id (newId : Int) (f : FormData) : (formToRow newId f).id = newId := rfl

/-- C1: for every valid creation payload and every store whose next assigned
id is fresh, `create` followed by `getById` on the returned id yields a
record equal to the input payload plus the assigned id, every field echoed
unchanged. -/
theorem create_then_get_echoes (s : Store) (f : FormData)
    (hfresh : ∀ r ∈ s.rows, r.id ≠ s.nextId) :
    (create_prescription s f).1 = .ok (echoResponse s.nextId f) ∧
    get_prescription (create_prescription s f).2 s.nextId = .ok (echoResponse s.nextId f) := by
  have h1 : s.rows.filter (fun r => r.id == s.nextId) = [] := by
    rw [List.filter_eq_nil_iff]
    intro r hr
    simp [hfresh r hr]
  constructor
  · simp [create_prescription, create_prescription_core, rowToResponse_formToRow]
  · simp [get_prescription, selectById, create_prescription, List.filter_append, h1,
      get_prescription_core, rowToResponse_formToRow, formToRow_id]

/-- Witness for C1 at the empty store and the sample payload. -/
theorem create_then_get_echoes_witness :
    (∀ r ∈ emptyStore.rows, r.id ≠ emptyStore.nextId) ∧
    ((create_prescription emptyStore formSample).1 =
        .ok (echoResponse emptyStore.nextId formSample) ∧
      get_prescription (create_prescription emptyStore formSample).2 emptyStore.nextId =
        .ok (echoResponse emptyStore.nextId formSample)) :=
  ⟨by simp [emptyStore],
   create_then_get_echoes emptyStore formSample (by simp [emptyStore])⟩

/-- Deleting never changes anything but the rows: the resulting store keeps
exactly the rows whose id differs from the requested one. -/
theorem delete_prescription_snd (s : Store) (pid : Int) :
    (delete_prescription s pid).2 = { s with rows := s.rows.filter fun r => !(r.id == pid) } := by
  simp only [delete_prescription]
  split <;> rfl

/-- C4: for every id absent from the store, `getById` yields the HTTP 404
response "Prescription not found"; in particular `delete` followed by
`getById` on the same id, from any store, yields that 404. -/
theorem get_missing_id_404 (s : Store) (pid : Int)
    (habsent : ∀ r ∈ s.rows, r.id ≠ pid) :
    get_prescription s pid = .err 404 (.str "Prescription not found") ∧
    ∀ t : Store, get_prescription (delete_prescription t pid).2 pid =
      .err 404 (.str "Prescription not found") := by
  constructor
  · have h1 : s.rows.filter (fun r => r.id == pid) = [] := by
      rw [List.filter_eq_nil_iff]
      intro r hr
      simp [habsent r hr]
    simp [get_prescription, selectById, h1, get_prescription_core]
  · intro t
    have h2 : (t.rows.filter fun r => !(r.id == pid)).filter (fun r => r.id == pid) = [] := by
      rw [List.filter_eq_nil_iff]
      intro r hr
      have := (List.mem_filter.mp hr).2
      simp_all
    simp [get_prescription, selectById, delete_prescription_snd, h2, get_prescription_core]

/-- Witness for C4 at the empty store and id 5. -/
theorem get_missing_id_404_witness :
    (∀ r ∈ emptyStore.rows, r.id ≠ 5) ∧
    (get_prescription emptyStore 5 = .err 404 (.str "Prescription not found") ∧
      ∀ t : Store, get_prescription (delete_prescription t 5).2 5 =
        .err 404 (.str "Prescription not found")) :=
  ⟨by simp [emptyStore], get_missing_id_404 emptyStore 5 (by simp [emptyStore])⟩

/-- C6: whenever the (possibly filtered) query matches no rows, the list
endpoint returns the empty sequence, not an error. -/
theorem list_no_match_returns_empty (s : Store) (d : Option Int)
    (h : listQueryRows s d = []) :
    get_prescriptions s d = .ok [] := by
  simp [get_prescriptions, h]

/-- Witness for C6 at the empty store with no filter. -/
theorem list_no_match_returns_empty_witness :
    listQueryRows emptyStore none = [] ∧ get_prescriptions emptyStore none = .ok [] :=
  ⟨rfl, list_no_match_returns_empty emptyStore none rfl⟩

/-- First duplicate-id row fixture. -/
def rowDupA : Row := formToRow 1 formSample

/-- Second duplicate-id row fixture: same id, different doctor. -/
def rowDupB : Row := formToRow 1 { formSample with drid := 2 }

/-- Store whose select for id 1 returns two rows. -/
def dupStore : Store := { rows := [rowDupA, rowDupB], nextId := 2 }

/-- C9: when the select for the requested id returns more than one row,
`getById` returns the prescription built from the first row of the result
and discards the rest. -/
theorem get_uses_first_row (s : Store) (pid : Int) (r : Row) (rest : List Row)
    (p : PrescriptionResponse) (hsel : selectById s pid = r :: rest)
    (hp : rowToResponse r = some p) :
    get_prescription s pid = .ok p := by
  simp [get_prescription, hsel, get_prescription_core, hp]

/-- Witness for C9: a store holding two rows with id 1 answers `getById 1`
with the prescription built from the first of them. -/
theorem get_uses_first_row_witness :
    selectById dupStore 1 = [rowDupA, rowDupB] ∧
    rowToResponse rowDupA = some (echoResponse 1 formSample) ∧
    get_prescription dupStore 1 = .ok (echoResponse 1 formSample) :=
  ⟨rfl, rowToResponse_formToRow 1 formSample,
   get_uses_first_row dupStore 1 rowDupA [rowDupB] (echoResponse 1 formSample) rfl
     (rowToResponse_formToRow 1 formSample)⟩

/-- Creation payload fixture whose doctor id is 0. -/
def formDrZero : FormData := { formSample with drid := 0 }

/-- Stored row with id 1 and doctor id 0. -/
def rowDrZero : Row := formToRow 1 formDrZero

/-- Stored row with id 2 and doctor id 1. -/
def rowDrOne : Row := formToRow 2 formSample

/-- Store holding one record with doctor id 0 and one with doctor id 1. -/
def mixedStore : Store := { rows := [rowDrZero, rowDrOne], nextId := 3 }

/-- C3 counterexample: with a store holding a `drid = 0` record and a
`drid = 1` record, supplying the filter value 0 does NOT return exactly the
records whose `drid` is 0 — `if drid:` treats 0 as falsy, so the filter is
skipped and both records come back. -/
theorem list_drid_zero_counterexample :
    ¬ (get_prescriptions mixedStore (some 0) =
        .ok ((mixedStore.rows.filter fun r => r.drid == 0).filterMap rowToResponse)) := by
  intro h
  have h1 : get_prescriptions mixedStore (some 0) =
      .ok [echoResponse 1 formDrZero, echoResponse 2 formSample] := rfl
  have h2 : ((mixedStore.rows.filter fun r => r.drid == 0).filterMap rowToResponse) =
      [echoResponse 1 formDrZero] := rfl
  rw [h1, h2] at h
  exact absurd (HResult.ok.inj h) (by decide)

/-- The list endpoint returns all queried rows, rebuilt, whenever every
queried row's stored medicines parse. -/
theorem get_prescriptions_rows (s : Store) (d : Option Int)
    (hwf : ∀ r ∈ listQueryRows s d, (rowToResponse r).isSome) :
    get_prescriptions s d = .ok ((listQueryRows s d).filterMap rowToResponse) := by
  simp only [get_prescriptions]
  by_cases h : (listQueryRows s d).isEmpty
  · have hnil : listQueryRows s d = [] := List.isEmpty_iff.mp h
    simp [hnil]
  · rw [if_neg h, optionMapM_eq_filterMap hwf]

/-- C3 amended: for every NONZERO supplied doctor-id filter, the list
endpoint returns exactly the stored records whose `drid` equals the
supplied value; a supplied value of 0 is treated like an absent filter
(Python falsiness of `if drid:`), so both return all records. -/
theorem list_filter_semantics (s : Store) (d : Int)
    (hwf : ∀ r ∈ s.rows, (rowToResponse r).isSome) :
    (d ≠ 0 →
      get_prescriptions s (some d) =
        .ok ((s.rows.filter fun r => r.drid == d).filterMap rowToResponse)) ∧
    get_prescriptions s (some 0) = .ok (s.rows.filterMap rowToResponse) ∧
    get_prescriptions s none = .ok (s.rows.filterMap rowToResponse) := by
  refine ⟨fun hd => ?_, ?_, ?_⟩
  · have hq : listQueryRows s (some d) = s.rows.filter fun r => r.drid == d := by
      simp [listQueryRows, bne_iff_ne, hd]
    have := get_prescriptions_rows s (some d)
      (by rw [hq]; exact fun r hr => hwf r (List.mem_filter.mp hr).1)
    rwa [hq] at this
  · have hq : listQueryRows s (some 0) = s.rows := by simp [listQueryRows]
    have := get_prescriptions_rows s (some 0) (by rw [hq]; exact hwf)
    rwa [hq] at this
  · exact get_prescriptions_rows s none hwf

/-- Witness for the amended C3 at the mixed store with filter value 1. -/
theorem list_filter_semantics_witness :
    (∀ r ∈ mixedStore.rows, (rowToResponse r).isSome) ∧
    (((1 : Int) ≠ 0 →
        get_prescriptions mixedStore (some 1) =
          .ok ((mixedStore.rows.filter fun r => r.drid == 1).filterMap rowToResponse)) ∧
      get_prescriptions mixedStore (some 0) = .ok (mixedStore.rows.filterMap rowToResponse) ∧
      get_prescriptions mixedStore none = .ok (mixedStore.rows.filterMap rowToResponse)) :=
  ⟨by decide, list_filter_semantics mixedStore 1 (by decide)⟩

/-- C8 counterexample: a creation payload missing every required field is
rejected by FastAPI validation with status 422 — neither 404 nor 500, so
not every error response carries one of those two statuses. -/
theorem invalid_body_not_404_500 :
    parseFormData (JVal.obj []) = none ∧
    postPrescriptions emptyStore (JVal.obj []) = (.err 422 validationErrorDetail, emptyStore) ∧
    (422 : Nat) ≠ 404 ∧ (422 : Nat) ≠ 500 :=
  ⟨rfl, rfl, by decide, by decide⟩

/-- Shape of the error responses the endpoint handlers themselves produce:
status 404 or 500, with a string bound to `detail`. -/
def errShape {α : Type} : HResult α → Prop
  | .ok _ => True
  | .err n d => (n = 404 ∨ n = 500) ∧ ∃ msg, d = JVal.str msg

/-- C8 amended: an inbound creation payload with a missing required field or
a mismatched primitive type is rejected with a validation error of status
422 (whose `detail` is a JSON array, not a string), while every error
response produced by the endpoint handlers themselves carries status 404 or
500 with a string `detail`. -/
theorem validation_422_and_handler_statuses (s : Store) (body : JVal) (pid : Int)
    (dr : Option Int) (f : FormData) (hbad : parseFormData body = none) :
    postPrescriptions s body = (.err 422 validationErrorDetail, s) ∧
    errShape (get_prescription s pid) ∧
    errShape ((delete_prescription s pid).1) ∧
    errShape (get_prescriptions s dr) ∧
    errShape ((create_prescription s f).1) := by
  refine ⟨by simp [postPrescriptions, hbad], ?_, ?_, ?_, ?_⟩
  · cases hsel : selectById s pid with
    | nil => simp [get_prescription, hsel, get_prescription_core, errShape]
    | cons r rest =>
        cases hr : rowToResponse r with
        | none => simp [get_prescription, hsel, get_prescription_core, hr, errShape]
        | some p => simp [get_prescription, hsel, get_prescription_core, hr, errShape]
  · by_cases h : (s.rows.filter fun r => r.id == pid).isEmpty
    · simp [delete_prescription, h, errShape]
    · simp [delete_prescription, h, errShape]
  · by_cases h : (listQueryRows s dr).isEmpty
    · simp [get_prescriptions, h, errShape]
    · cases hm : optionMapM rowToResponse (listQueryRows s dr) with
      | none => simp [get_prescriptions, h, hm, errShape]
      | some ps => simp [get_prescriptions, h, hm, errShape]
  · simp [create_prescription, create_prescription_core, rowToResponse_formToRow, errShape]

/-- Witness for the amended C8 at concrete inputs: the empty body object,
the empty store, id 1, no filter, and the sample payload. -/
theorem validation_422_and_handler_statuses_witness :
    parseFormData (JVal.obj []) = none ∧
    (postPrescriptions emptyStore (JVal.obj []) = (.err 422 validationErrorDetail, emptyStore) ∧
      errShape (get_prescription emptyStore 1) ∧
      errShape ((delete_prescription emptyStore 1).1) ∧
      errShape (get_prescriptions emptyStore none) ∧
      errShape ((create_prescription emptyStore formSample).1)) :=
  ⟨rfl, validation_422_and_handler_statuses emptyStore (JVal.obj []) 1 none formSample rfl⟩
